import Mathlib

/-!
Shallow embedding of the chunk-api modpack registry core: slug generation,
the modpack catalog, the version ledger, the upload manager and the
project-detail aggregator.  The relational store is modelled as in-memory
lists with explicit id sequences and a server clock; file storage is an
association list from file names to byte lists.  Each router handler
becomes a total function from its inputs and the store to a result
(`Except ApiError _`) paired with the updated store.
-/

namespace ChunkApi

/-- A user record (`models/modpack.py`, class `User`): only the fields the
modelled routers read (primary key and username). -/
structure User where
  id : Nat
  username : String
  deriving Repr, DecidableEq

/-- A modpack record (`models/modpack.py`, class `Modpack`). -/
structure Modpack where
  id : Nat
  name : String
  slug : String
  description : Option String
  mc_version : String
  loader : String
  loader_version : Option String
  recommended_ram_gb : Int
  downloads : Nat
  author_id : Nat
  is_published : Bool
  created_at : Option Nat
  updated_at : Option Nat
  deriving Repr, DecidableEq

/-- A version record (`models/modpack.py`, class `ModpackVersion`). -/
structure ModpackVersion where
  id : Nat
  modpack_id : Nat
  version : String
  mc_version : String
  loader : String
  loader_version : Option String
  changelog : Option String
  download_url : Option String
  file_size : Option Int
  downloads : Nat
  is_stable : Bool
  created_at : Option Nat
  deriving Repr, DecidableEq

/-- The persistent store seen by the routers: the three tables, the id
sequences the database would assign on insert, and the server clock that
fills `created_at` defaults. -/
structure DB where
  users : List User
  modpacks : List Modpack
  versions : List ModpackVersion
  next_modpack_id : Nat
  next_version_id : Nat
  now : Nat
  deriving Repr, DecidableEq

/-- An `HTTPException` as raised by the routers: status code and detail. -/
structure ApiError where
  status_code : Nat
  detail : String
  deriving Repr, DecidableEq

/-- Request body of `POST /modpacks/` (`routers/modpacks.py`, `ModpackCreate`). -/
structure ModpackCreate where
  name : String
  description : Option String
  mc_version : String
  loader : String
  loader_version : Option String
  recommended_ram_gb : Int
  deriving Repr, DecidableEq

/-- Request body of `POST /modpacks/{slug}/versions/`
(`api/routers/versions.py`, `VersionCreate`). -/
structure VersionCreate where
  version : String
  mc_version : String
  loader : String
  loader_version : Option String
  changelog : Option String
  download_url : Option String
  file_size : Option Int
  is_stable : Bool
  deriving Repr, DecidableEq

/-- `generate_slug` (`routers/modpacks.py` lines 45-50): lower-case,
replace spaces by hyphens, keep only characters of the allowed alphabet.
A Python string is a sequence of characters, so `name.lower()` and the
single-character `slug.replace(" ", "-")` act character by character; they
are embedded as maps over the character list. -/
def generate_slug (name : String) : String :=
  let slug := String.mk (name.data.map Char.toLower)
  let slug := String.mk (slug.data.map (fun c => if c == ' ' then '-' else c))
  let allowed_chars := "abcdefghijklmnopqrstuvwxyz0123456789-"
  String.mk (slug.data.filter (fun c => allowed_chars.data.contains c))

/-- The slug contract as worded in the specification (§4.1): lower-case the
input, replace every space with a hyphen, then strip every character not in
the character class `[a-z0-9-]`. -/
def generate_slug_spec (name : String) : String :=
  let lowered := String.mk (name.data.map Char.toLower)
  let hyphened := String.mk (lowered.data.map (fun c => if c == ' ' then '-' else c))
  String.mk (hyphened.data.filter (fun c =>
    (decide ('a' ≤ c) && decide (c ≤ 'z')) ||
    (decide ('0' ≤ c) && decide (c ≤ '9')) ||
    (c == '-')))

/-- Replace the first element satisfying `p` by its image under `f`; this is
how a single ORM-object mutation followed by `commit` acts on a table. -/
def updateFirst {α : Type} (p : α → Bool) (f : α → α) : List α → List α
  | [] => []
  | x :: xs => if p x then f x :: xs else x :: updateFirst p f xs

/-- The `modpack.downloads += 1` mutation of `get_modpack`. -/
def bump_downloads (m : Modpack) : Modpack :=
  { m with downloads := m.downloads + 1 }

/-- The `db_version.downloads += 1` mutation of `get_version`. -/
def bump_version_downloads (v : ModpackVersion) : ModpackVersion :=
  { v with downloads := v.downloads + 1 }

/-- `POST /modpacks/` (`routers/modpacks.py`, `create_modpack`). -/
def create_modpack (modpack : ModpackCreate) (current_user : User) (db : DB) :
    Except ApiError Modpack × DB :=
  let slug := generate_slug modpack.name
  match db.modpacks.find? (fun m => m.slug == slug) with
  | some _ => (Except.error ⟨400, "Modpack with this name already exists"⟩, db)
  | none =>
    let db_modpack : Modpack :=
      { id := db.next_modpack_id
        name := modpack.name
        slug := slug
        description := modpack.description
        mc_version := modpack.mc_version
        loader := modpack.loader
        loader_version := modpack.loader_version
        recommended_ram_gb := modpack.recommended_ram_gb
        downloads := 0
        author_id := current_user.id
        is_published := false
        created_at := some db.now
        updated_at := none }
    (Except.ok db_modpack,
      { db with
          modpacks := db.modpacks ++ [db_modpack]
          next_modpack_id := db.next_modpack_id + 1 })

/-- `GET /modpacks/{slug}` (`routers/modpacks.py`, `get_modpack`): 404 when
absent or unpublished, otherwise increment the download counter and commit. -/
def get_modpack (slug : String) (db : DB) : Except ApiError Modpack × DB :=
  match db.modpacks.find? (fun m => m.slug == slug) with
  | none => (Except.error ⟨404, "Modpack not found"⟩, db)
  | some modpack =>
    if !modpack.is_published then
      (Except.error ⟨404, "Modpack not found"⟩, db)
    else
      (Except.ok (bump_downloads modpack),
        { db with
            modpacks := updateFirst (fun m => m.slug == slug) bump_downloads db.modpacks })

/-- `POST /modpacks/{slug}/versions/` (`api/routers/versions.py`,
`create_version`). -/
def create_version (slug : String) (version : VersionCreate) (current_user : User)
    (db : DB) : Except ApiError ModpackVersion × DB :=
  match db.modpacks.find? (fun m => m.slug == slug) with
  | none => (Except.error ⟨404, "Modpack not found"⟩, db)
  | some modpack =>
    if modpack.author_id != current_user.id then
      (Except.error ⟨403, "Not authorized to create versions for this modpack"⟩, db)
    else
      match db.versions.find?
          (fun v => v.modpack_id == modpack.id && v.version == version.version) with
      | some _ => (Except.error ⟨400, "Version already exists"⟩, db)
      | none =>
        let db_version : ModpackVersion :=
          { id := db.next_version_id
            modpack_id := modpack.id
            version := version.version
            mc_version := version.mc_version
            loader := version.loader
            loader_version := version.loader_version
            changelog := version.changelog
            download_url := version.download_url
            file_size := version.file_size
            downloads := 0
            is_stable := version.is_stable
            created_at := some db.now }
        (Except.ok db_version,
          { db with
              versions := db.versions ++ [db_version]
              next_version_id := db.next_version_id + 1 })

/-- `GET /modpacks/{slug}/versions/` (`api/routers/versions.py`,
`list_versions`): 404 when the modpack is absent or unpublished, else the
modpack's versions, optionally restricted to stable ones, ordered by
creation time descending. -/
def list_versions (slug : String) (stable_only : Bool) (db : DB) :
    Except ApiError (List ModpackVersion) × DB :=
  match db.modpacks.find? (fun m => m.slug == slug) with
  | none => (Except.error ⟨404, "Modpack not found"⟩, db)
  | some modpack =>
    if !modpack.is_published then
      (Except.error ⟨404, "Modpack not found"⟩, db)
    else
      let q := db.versions.filter (fun v => v.modpack_id == modpack.id)
      let q := if stable_only then q.filter (fun v => v.is_stable) else q
      (Except.ok (q.mergeSort
        (fun a b => decide ((b.created_at.getD 0) ≤ (a.created_at.getD 0)))), db)

/-- `GET /modpacks/{slug}/versions/{version}` (`api/routers/versions.py`,
`get_version`): 404 when the modpack is absent or unpublished or the version
is absent, else increment the version's download counter and commit. -/
def get_version (slug : String) (version : String) (db : DB) :
    Except ApiError ModpackVersion × DB :=
  match db.modpacks.find? (fun m => m.slug == slug) with
  | none => (Except.error ⟨404, "Modpack not found"⟩, db)
  | some modpack =>
    if !modpack.is_published then
      (Except.error ⟨404, "Modpack not found"⟩, db)
    else
      match db.versions.find?
          (fun v => v.modpack_id == modpack.id && v.version == version) with
      | none => (Except.error ⟨404, "Version not found"⟩, db)
      | some db_version =>
        (Except.ok (bump_version_downloads db_version),
          { db with
              versions := updateFirst
                (fun v => v.modpack_id == modpack.id && v.version == version)
                bump_version_downloads db.versions })

/-- Author summary embedded in a project page (`routers/projects.py`,
`AuthorInfo`). -/
structure AuthorInfo where
  id : Nat
  username : String
  deriving Repr, DecidableEq

/-- Version summary embedded in a project page (`routers/projects.py`,
`VersionInfo`). -/
structure VersionInfo where
  id : Nat
  version : String
  mc_version : String
  loader : String
  loader_version : Option String
  changelog : Option String
  download_url : Option String
  file_size : Option Int
  downloads : Nat
  is_stable : Bool
  created_at : Option Nat
  deriving Repr, DecidableEq

/-- Download statistics of a project page (`routers/projects.py`,
`DownloadStats`). -/
structure DownloadStats where
  total_downloads : Nat
  version_downloads : Nat
  deriving Repr, DecidableEq

/-- The denormalized project view (`routers/projects.py`, `ProjectDetail`). -/
structure ProjectDetail where
  id : Nat
  name : String
  slug : String
  description : Option String
  mc_version : String
  loader : String
  loader_version : Option String
  recommended_ram_gb : Int
  downloads : Nat
  is_published : Bool
  created_at : Option Nat
  updated_at : Option Nat
  author : AuthorInfo
  versions : List VersionInfo
  download_stats : DownloadStats
  deriving Repr, DecidableEq

/-- Projection of a stored version onto the `VersionInfo` schema
(`routers/projects.py` lines 126-138). -/
def toVersionInfo (v : ModpackVersion) : VersionInfo :=
  { id := v.id
    version := v.version
    mc_version := v.mc_version
    loader := v.loader
    loader_version := v.loader_version
    changelog := v.changelog
    download_url := v.download_url
    file_size := v.file_size
    downloads := v.downloads
    is_stable := v.is_stable
    created_at := v.created_at }

/-- The sort key of the aggregator's version list: Python's
`(v.created_at if v.created_at else datetime.min, v.id)`, with `datetime.min`
rendered as 0. -/
def detailKey (v : ModpackVersion) : Nat × Nat :=
  (v.created_at.getD 0, v.id)

/-- `a` may precede `b` in the aggregator's version list: descending
lexicographic comparison of the sort keys, matching Python's stable
`sorted(..., key=..., reverse=True)`. -/
def detailVersionLe (a b : ModpackVersion) : Bool :=
  decide ((detailKey b).1 < (detailKey a).1) ||
    ((detailKey b).1 == (detailKey a).1 && decide ((detailKey b).2 ≤ (detailKey a).2))

/-- `GET /projects/{slug}` (`routers/projects.py`, `get_project_detail`):
read-only aggregation of the modpack, its author, the sorted version history
and download statistics.  A missing author row would make the handler crash,
which the framework surfaces as a 500. -/
def get_project_detail (slug : String) (db : DB) :
    Except ApiError ProjectDetail × DB :=
  match db.modpacks.find? (fun m => m.slug == slug) with
  | none => (Except.error ⟨404, "Project not found"⟩, db)
  | some modpack =>
    if !modpack.is_published then
      (Except.error ⟨404, "Project not found"⟩, db)
    else
      match db.users.find? (fun u => u.id == modpack.author_id) with
      | none => (Except.error ⟨500, "Internal Server Error"⟩, db)
      | some author =>
        let children := db.versions.filter (fun v => v.modpack_id == modpack.id)
        let version_downloads := (children.map (fun v => v.downloads)).sum
        let sorted_versions := children.mergeSort detailVersionLe
        (Except.ok
          { id := modpack.id
            name := modpack.name
            slug := modpack.slug
            description := modpack.description
            mc_version := modpack.mc_version
            loader := modpack.loader
            loader_version := modpack.loader_version
            recommended_ram_gb := modpack.recommended_ram_gb
            downloads := modpack.downloads
            is_published := modpack.is_published
            created_at := modpack.created_at
            updated_at := modpack.updated_at
            author := { id := author.id, username := author.username }
            versions := sorted_versions.map toVersionInfo
            download_stats :=
              { total_downloads := modpack.downloads
                version_downloads := version_downloads } }, db)

/-- Upload file storage: file name to byte content (bytes as `Nat`). -/
abbrev Storage := List (String × List Nat)

/-- Does a file with this name exist on storage? -/
def fileExists (fs : Storage) (name : String) : Bool :=
  fs.any (fun f => f.1 == name)

/-- Write (create or overwrite) a file. -/
def writeFile (fs : Storage) (name : String) (content : List Nat) : Storage :=
  (name, content) :: fs.filter (fun f => f.1 != name)

/-- `Path.unlink`: remove a file. -/
def unlinkFile (fs : Storage) (name : String) : Storage :=
  fs.filter (fun f => f.1 != name)

/-- `MAX_FILE_SIZE = 500 * 1024 * 1024` (`api/routers/upload.py` line 16). -/
def MAX_FILE_SIZE : Nat := 500 * 1024 * 1024

/-- `Path(filename).suffix`: the final extension of the last path component,
empty for dotless names, trailing-dot names and bare dotfiles. -/
def pathSuffix (p : String) : String :=
  let base := (p.splitOn "/").getLastD ""
  match base.splitOn "." with
  | [] => ""
  | [_] => ""
  | first :: rest =>
    let ext := rest.getLastD ""
    if first == "" && rest.length == 1 then ""
    else if ext == "" then ""
    else "." ++ ext

/-- Python's `str.endswith(suffix)` as a character-level suffix test. -/
def strEndsWith (s suffix : String) : Bool :=
  suffix.data.isSuffixOf s.data

/-- Total number of bytes in a chunked request body. -/
def totalBytes (chunks : List (List Nat)) : Nat :=
  (chunks.map List.length).sum

/-- The streaming loop of `upload_modpack_file` (`api/routers/upload.py`
lines 66-76): consume chunks until the first empty one (end of stream),
accumulating size and content; return `none` as soon as the running size
exceeds the ceiling (the mid-stream abort path). -/
def streamToFile (max : Nat) : List (List Nat) → Nat → List Nat → Option (Nat × List Nat)
  | [], size, acc => some (size, acc)
  | chunk :: rest, size, acc =>
    if chunk.length == 0 then some (size, acc)
    else
      let size' := size + chunk.length
      if max < size' then none
      else streamToFile max rest size' (acc ++ chunk)

/-- Success payload of `upload_modpack_file`. -/
structure UploadResult where
  message : String
  filename : String
  size : Nat
  hash : String
  download_url : String
  deriving Repr, DecidableEq

/-- `POST /upload/modpack/{slug}` (`api/routers/upload.py`,
`upload_modpack_file`).  The SHA-256 digest is an external primitive and is
passed in as `hashFn`.  On the oversized path the partial file is unlinked
and the 413 `HTTPException` raised inside the `try` block is caught by the
handler's own blanket `except Exception` clause, which re-raises it as a 500
whose detail wraps the 413 message. -/
def upload_modpack_file (slug : String) (version : String) (filename : String)
    (chunks : List (List Nat)) (hashFn : List Nat → String) (current_user : User)
    (db : DB) (fs : Storage) : Except ApiError UploadResult × DB × Storage :=
  match db.modpacks.find? (fun m => m.slug == slug) with
  | none => (Except.error ⟨404, "Modpack not found"⟩, db, fs)
  | some modpack =>
    if modpack.author_id != current_user.id then
      (Except.error ⟨403, "Not authorized to upload files for this modpack"⟩, db, fs)
    else if !(strEndsWith filename ".zip" || strEndsWith filename ".mrpack") then
      (Except.error ⟨400, "Only .zip and .mrpack files are allowed"⟩, db, fs)
    else
      match db.versions.find?
          (fun v => v.modpack_id == modpack.id && v.version == version) with
      | none => (Except.error ⟨404, "Version not found"⟩, db, fs)
      | some _ =>
        let file_extension := pathSuffix filename
        let safe_filename := slug ++ "-" ++ version ++ file_extension
        match streamToFile MAX_FILE_SIZE chunks 0 [] with
        | none =>
          (Except.error
            ⟨500, "Upload failed: 413: File too large. Maximum size is 500.0MB"⟩,
            db, unlinkFile fs safe_filename)
        | some (file_size, content) =>
          let fs' := writeFile fs safe_filename content
          let file_hash := hashFn content
          let download_url := "/uploads/" ++ safe_filename
          let db' :=
            { db with
                versions := updateFirst
                  (fun v => v.modpack_id == modpack.id && v.version == version)
                  (fun v => { v with
                      download_url := some download_url
                      file_size := some (Int.ofNat file_size) })
                  db.versions }
          (Except.ok
            { message := "File uploaded successfully"
              filename := safe_filename
              size := file_size
              hash := file_hash
              download_url := download_url }, db', fs')

/-- `n` successive calls of the project-detail aggregator, threading the
store: used to state that repeated detail reads never touch the store. -/
def iterate_detail (slug : String) : Nat → DB → DB
  | 0, db => db
  | n + 1, db => iterate_detail slug n (get_project_detail slug db).2

/-- Download statistics of a project-detail result, when it succeeded. -/
def detailStats (r : Except ApiError ProjectDetail) : Option (Nat × Nat) :=
  match r with
  | Except.ok d => some (d.download_stats.total_downloads, d.download_stats.version_downloads)
  | Except.error _ => none

/-- Version list of a project-detail result, when it succeeded. -/
def detailVersions (r : Except ApiError ProjectDetail) : Option (List VersionInfo) :=
  match r with
  | Except.ok d => some d.versions
  | Except.error _ => none

/-- File fields of a version-creation result, when it succeeded. -/
def versionFileFields (r : Except ApiError ModpackVersion) :
    Option (Option String × Option Int) :=
  match r with
  | Except.ok v => some (v.download_url, v.file_size)
  | Except.error _ => none

/- Sample store used by the witnesses: one author, one published and one
unpublished modpack, two versions of the published one. -/

def alice : User := ⟨1, "alice"⟩

def bob : User := ⟨2, "bob"⟩

def pubModpack : Modpack :=
  ⟨1, "All The Mods 9", "all-the-mods-9", none, "1.20.1", "forge", none, 4, 5, 1,
    true, some 10, none⟩

def hiddenModpack : Modpack :=
  ⟨2, "Secret Pack", "secret-pack", none, "1.20.1", "forge", none, 4, 0, 1,
    false, some 10, none⟩

def v100 : ModpackVersion :=
  ⟨1, 1, "1.0.0", "1.20.1", "forge", none, none, none, none, 7, true, some 11⟩

def v110 : ModpackVersion :=
  ⟨2, 1, "1.1.0", "1.20.1", "forge", none, none, none, none, 3, true, some 12⟩

def sampleDB : DB := ⟨[alice, bob], [pubModpack, hiddenModpack], [v100, v110], 3, 3, 20⟩

/-! ## Helper lemmas -/

theorem find?_updateFirst {α : Type} (p : α → Bool) (f : α → α) (l : List α) (m : α)
    (h : l.find? p = some m) (hf : p (f m) = true) :
    (updateFirst p f l).find? p = some (f m) := by
  induction l with
  | nil => simp at h
  | cons x xs ih =>
    cases hx : p x with
    | true =>
      have hxm : x = m := by simpa [List.find?_cons, hx] using h
      subst hxm
      simp [updateFirst, hx, List.find?_cons, hf]
    | false =>
      have h' : xs.find? p = some m := by simpa [List.find?_cons, hx] using h
      simpa [updateFirst, hx, List.find?_cons] using ih h'

theorem get_project_detail_state (slug : String) (db : DB) :
    (get_project_detail slug db).2 = db := by
  unfold get_project_detail
  cases hm : db.modpacks.find? (fun m => m.slug == slug) with
  | none => rfl
  | some m =>
    cases hpub : m.is_published with
    | false => simp [hpub]
    | true =>
      cases ha : db.users.find? (fun u => u.id == m.author_id) with
      | none => simp [hpub, ha]
      | some a => simp [hpub, ha]

theorem iterate_detail_id (slug : String) (n : Nat) (db : DB) :
    iterate_detail slug n db = db := by
  induction n generalizing db with
  | zero => rfl
  | succ k ih => simp [iterate_detail, get_project_detail_state, ih]

/-! ## Claims -/

/-- C2: for a modpack whose publish flag is false, direct get by slug,
version list, version get and project detail all return the same NotFound
error that a nonexistent modpack produces, so a hidden modpack is
indistinguishable from an absent one on all four read paths (none of which
takes a caller identity, so this holds for every caller). -/
theorem unpublished_modpack_hidden (slug vlabel : String) (stable_only : Bool)
    (db : DB) (m : Modpack)
    (hfind : db.modpacks.find? (fun x => x.slug == slug) = some m)
    (hunpub : m.is_published = false) :
    get_modpack slug db = (Except.error ⟨404, "Modpack not found"⟩, db) ∧
    list_versions slug stable_only db = (Except.error ⟨404, "Modpack not found"⟩, db) ∧
    get_version slug vlabel db = (Except.error ⟨404, "Modpack not found"⟩, db) ∧
    get_project_detail slug db = (Except.error ⟨404, "Project not found"⟩, db) ∧
    (∀ db2 : DB, db2.modpacks.find? (fun x => x.slug == slug) = none →
      get_modpack slug db2 = (Except.error ⟨404, "Modpack not found"⟩, db2) ∧
      list_versions slug stable_only db2 = (Except.error ⟨404, "Modpack not found"⟩, db2) ∧
      get_version slug vlabel db2 = (Except.error ⟨404, "Modpack not found"⟩, db2) ∧
      get_project_detail slug db2 = (Except.error ⟨404, "Project not found"⟩, db2)) := by
  refine ⟨?_, ?_, ?_, ?_, ?_⟩
  · simp [get_modpack, hfind, hunpub]
  · simp [list_versions, hfind, hunpub]
  · simp [get_version, hfind, hunpub]
  · simp [get_project_detail, hfind, hunpub]
  · intro db2 h2
    exact ⟨by simp [get_modpack, h2], by simp [list_versions, h2],
      by simp [get_version, h2], by simp [get_project_detail, h2]⟩

theorem unpublished_modpack_hidden_witness :
    get_modpack "secret-pack" sampleDB =
      (Except.error ⟨404, "Modpack not found"⟩, sampleDB) ∧
    list_versions "secret-pack" false sampleDB =
      (Except.error ⟨404, "Modpack not found"⟩, sampleDB) ∧
    get_version "secret-pack" "1.0.0" sampleDB =
      (Except.error ⟨404, "Modpack not found"⟩, sampleDB) ∧
    get_project_detail "secret-pack" sampleDB =
      (Except.error ⟨404, "Project not found"⟩, sampleDB) := by
  have h := unpublished_modpack_hidden "secret-pack" "1.0.0" false sampleDB
    hiddenModpack (by decide) (by decide)
  exact ⟨h.1, h.2.1, h.2.2.1, h.2.2.2.1⟩

/-- C9: the public get-by-slug and project-detail handlers take no caller
identity, so an unpublished modpack yields NotFound on these reads for every
caller — in particular for a user whose id equals the modpack's author id,
i.e. there is no author exemption on these paths. -/
theorem public_reads_have_no_author_exemption (slug : String) (db : DB)
    (m : Modpack) (u : User)
    (hfind : db.modpacks.find? (fun x => x.slug == slug) = some m)
    (hunpub : m.is_published = false)
    (_hauthor : u.id = m.author_id) :
    get_modpack slug db = (Except.error ⟨404, "Modpack not found"⟩, db) ∧
    get_project_detail slug db = (Except.error ⟨404, "Project not found"⟩, db) := by
  exact ⟨by simp [get_modpack, hfind, hunpub], by simp [get_project_detail, hfind, hunpub]⟩

theorem public_reads_have_no_author_exemption_witness :
    get_modpack "secret-pack" sampleDB =
      (Except.error ⟨404, "Modpack not found"⟩, sampleDB) ∧
    get_project_detail "secret-pack" sampleDB =
      (Except.error ⟨404, "Project not found"⟩, sampleDB) :=
  public_reads_have_no_author_exemption "secret-pack" sampleDB hiddenModpack alice
    (by decide) (by decide) (by decide)

/-- C3: a successful get-by-slug of a published modpack returns the record
with its download counter incremented by exactly 1 and commits exactly that
increment to the store (versions untouched), while any number of
project-detail calls leaves the whole store — hence every download counter —
unchanged. -/
theorem get_modpack_increments_detail_does_not (slug : String) (db : DB) (m : Modpack)
    (hfind : db.modpacks.find? (fun x => x.slug == slug) = some m)
    (hpub : m.is_published = true) :
    (get_modpack slug db).1 = Except.ok { m with downloads := m.downloads + 1 } ∧
    (get_modpack slug db).2.modpacks.find? (fun x => x.slug == slug) =
      some { m with downloads := m.downloads + 1 } ∧
    (get_modpack slug db).2.versions = db.versions ∧
    (∀ (db2 : DB) (n : Nat), iterate_detail slug n db2 = db2) := by
  have hp := List.find?_some hfind
  have hp' : (fun x : Modpack => x.slug == slug) (bump_downloads m) = true := by
    simpa [bump_downloads] using hp
  refine ⟨?_, ?_, ?_, ?_⟩
  · simp [get_modpack, hfind, hpub, bump_downloads]
  · have := find?_updateFirst (fun x : Modpack => x.slug == slug) bump_downloads
      db.modpacks m hfind hp'
    simpa [get_modpack, hfind, hpub, bump_downloads] using this
  · simp [get_modpack, hfind, hpub]
  · intro db2 n
    exact iterate_detail_id slug n db2

theorem get_modpack_increments_detail_does_not_witness :
    (get_modpack "all-the-mods-9" sampleDB).1 =
      Except.ok { pubModpack with downloads := pubModpack.downloads + 1 } ∧
    (get_modpack "all-the-mods-9" sampleDB).2.modpacks.find?
        (fun x => x.slug == "all-the-mods-9") =
      some { pubModpack with downloads := pubModpack.downloads + 1 } ∧
    (get_modpack "all-the-mods-9" sampleDB).2.versions = sampleDB.versions ∧
    iterate_detail "all-the-mods-9" 3 sampleDB = sampleDB := by
  have h := get_modpack_increments_detail_does_not "all-the-mods-9" sampleDB
    pubModpack (by decide) (by decide)
  exact ⟨h.1, h.2.1, h.2.2.1, h.2.2.2 sampleDB 3⟩

/-- C5: when two creation requests carry names that slugify to the same
value, the first creation succeeds and appends exactly one record, and the
second fails with the duplicate error while leaving the store — including
the first record — exactly as it was. -/
theorem duplicate_slug_rejected (req1 req2 : ModpackCreate) (u1 u2 : User) (db : DB)
    (hslug : generate_slug req2.name = generate_slug req1.name)
    (hfresh : db.modpacks.find?
      (fun m => m.slug == generate_slug req1.name) = none) :
    (create_modpack req1 u1 db).1.isOk = true ∧
    (create_modpack req1 u1 db).2.modpacks.take db.modpacks.length = db.modpacks ∧
    (create_modpack req1 u1 db).2.modpacks.length = db.modpacks.length + 1 ∧
    ((create_modpack req1 u1 db).2.modpacks.getLast?).map (fun m => m.slug) =
      some (generate_slug req1.name) ∧
    create_modpack req2 u2 (create_modpack req1 u1 db).2 =
      (Except.error ⟨400, "Modpack with this name already exists"⟩,
        (create_modpack req1 u1 db).2) := by
  refine ⟨?_, ?_, ?_, ?_, ?_⟩
  · simp [create_modpack, hfresh, Except.isOk, Except.toBool]
  · simp [create_modpack, hfresh, List.take_left]
  · simp [create_modpack, hfresh]
  · simp [create_modpack, hfresh]
  · simp only [create_modpack, hfresh, hslug]
    simp [List.find?_append, hfresh]

theorem duplicate_slug_rejected_witness :
    (create_modpack ⟨"All The Mods 10", none, "1.20.1", "forge", none, 4⟩ alice sampleDB).1.isOk = true ∧
    (create_modpack ⟨"All The Mods 10", none, "1.20.1", "forge", none, 4⟩ alice sampleDB).2.modpacks.take
        sampleDB.modpacks.length = sampleDB.modpacks ∧
    (create_modpack ⟨"All The Mods 10", none, "1.20.1", "forge", none, 4⟩ alice sampleDB).2.modpacks.length =
      sampleDB.modpacks.length + 1 ∧
    ((create_modpack ⟨"All The Mods 10", none, "1.20.1", "forge", none, 4⟩ alice sampleDB).2.modpacks.getLast?).map
        (fun m => m.slug) = some (generate_slug "All The Mods 10") ∧
    create_modpack ⟨"ALL the mods 10", none, "1.20.1", "fabric", none, 6⟩ bob
        (create_modpack ⟨"All The Mods 10", none, "1.20.1", "forge", none, 4⟩ alice sampleDB).2 =
      (Except.error ⟨400, "Modpack with this name already exists"⟩,
        (create_modpack ⟨"All The Mods 10", none, "1.20.1", "forge", none, 4⟩ alice sampleDB).2) :=
  duplicate_slug_rejected ⟨"All The Mods 10", none, "1.20.1", "forge", none, 4⟩
    ⟨"ALL the mods 10", none, "1.20.1", "fabric", none, 6⟩ alice bob sampleDB
    (by decide) (by decide)

/-- C6: creating a version whose `(modpack, version_label)` pair already
exists fails with the duplicate error and returns the store unchanged, so no
record is created and the existing version — its download counter included —
is untouched. -/
theorem duplicate_version_rejected (slug : String) (req : VersionCreate) (u : User)
    (db : DB) (mp : Modpack) (v0 : ModpackVersion)
    (hmp : db.modpacks.find? (fun m => m.slug == slug) = some mp)
    (hauth : mp.author_id = u.id)
    (hdup : db.versions.find?
      (fun v => v.modpack_id == mp.id && v.version == req.version) = some v0) :
    create_version slug req u db = (Except.error ⟨400, "Version already exists"⟩, db) ∧
    (create_version slug req u db).2.versions.find?
      (fun v => v.modpack_id == mp.id && v.version == req.version) = some v0 := by
  have h1 : create_version slug req u db =
      (Except.error ⟨400, "Version already exists"⟩, db) := by
    simp [create_version, hmp, hauth, hdup]
  exact ⟨h1, by rw [h1]; exact hdup⟩

theorem duplicate_version_rejected_witness :
    create_version "all-the-mods-9" ⟨"1.0.0", "1.20.1", "forge", none, none, none, none, true⟩
        alice sampleDB = (Except.error ⟨400, "Version already exists"⟩, sampleDB) ∧
    (create_version "all-the-mods-9" ⟨"1.0.0", "1.20.1", "forge", none, none, none, none, true⟩
        alice sampleDB).2.versions.find?
      (fun v => v.modpack_id == pubModpack.id && v.version == "1.0.0") = some v100 :=
  duplicate_version_rejected "all-the-mods-9"
    ⟨"1.0.0", "1.20.1", "forge", none, none, none, none, true⟩ alice sampleDB
    pubModpack v100 (by decide) (by decide) (by decide)

/-- C10: a successful version creation copies the caller-supplied
`download_url` and `file_size` straight onto the new record: the returned
version and the record appended to the store both carry exactly the
requested values, so these fields are not populated exclusively by the
upload manager. -/
theorem create_version_stores_caller_file_fields (slug : String) (req : VersionCreate)
    (u : User) (db : DB) (mp : Modpack)
    (hmp : db.modpacks.find? (fun m => m.slug == slug) = some mp)
    (hauth : mp.author_id = u.id)
    (hfresh : db.versions.find?
      (fun v => v.modpack_id == mp.id && v.version == req.version) = none) :
    versionFileFields (create_version slug req u db).1 =
      some (req.download_url, req.file_size) ∧
    (create_version slug req u db).2.versions.take db.versions.length = db.versions ∧
    (create_version slug req u db).2.versions.length = db.versions.length + 1 ∧
    ((create_version slug req u db).2.versions.getLast?).map
      (fun v => (v.download_url, v.file_size)) =
      some (req.download_url, req.file_size) := by
  refine ⟨?_, ?_, ?_, ?_⟩
  · simp [create_version, hmp, hauth, hfresh, versionFileFields]
  · simp [create_version, hmp, hauth, hfresh, List.take_left]
  · simp [create_version, hmp, hauth, hfresh]
  · simp [create_version, hmp, hauth, hfresh]

theorem create_version_stores_caller_file_fields_witness :
    versionFileFields (create_version "all-the-mods-9"
        ⟨"2.0.0", "1.20.1", "forge", none, none, some "https://cdn.example/x.zip", some 99, true⟩
        alice sampleDB).1 = some (some "https://cdn.example/x.zip", some 99) ∧
    (create_version "all-the-mods-9"
        ⟨"2.0.0", "1.20.1", "forge", none, none, some "https://cdn.example/x.zip", some 99, true⟩
        alice sampleDB).2.versions.take sampleDB.versions.length = sampleDB.versions ∧
    (create_version "all-the-mods-9"
        ⟨"2.0.0", "1.20.1", "forge", none, none, some "https://cdn.example/x.zip", some 99, true⟩
        alice sampleDB).2.versions.length = sampleDB.versions.length + 1 ∧
    ((create_version "all-the-mods-9"
        ⟨"2.0.0", "1.20.1", "forge", none, none, some "https://cdn.example/x.zip", some 99, true⟩
        alice sampleDB).2.versions.getLast?).map (fun v => (v.download_url, v.file_size)) =
      some (some "https://cdn.example/x.zip", some 99) :=
  create_version_stores_caller_file_fields "all-the-mods-9"
    ⟨"2.0.0", "1.20.1", "forge", none, none, some "https://cdn.example/x.zip", some 99, true⟩
    alice sampleDB pubModpack (by decide) (by decide) (by decide)

theorem allowed_contains_eq (c : Char) :
    ("abcdefghijklmnopqrstuvwxyz0123456789-".data.contains c) =
      ((decide ('a' ≤ c) && decide (c ≤ 'z')) ||
       (decide ('0' ≤ c) && decide (c ≤ '9')) ||
       (c == '-')) := by
  rw [Bool.eq_iff_iff]
  constructor
  · intro h
    have hmem : c ∈ "abcdefghijklmnopqrstuvwxyz0123456789-".data := by simpa using h
    fin_cases hmem <;> decide
  · intro h
    have hmem : c ∈ "abcdefghijklmnopqrstuvwxyz0123456789-".data := by
      simp only [Bool.or_eq_true, Bool.and_eq_true, decide_eq_true_eq, beq_iff_eq] at h
      rcases h with (⟨h1, h2⟩ | ⟨h1, h2⟩) | h1
      · have n1 : 97 ≤ c.toNat := h1
        have n2 : c.toNat ≤ 122 := h2
        interval_cases hn : c.toNat <;>
          (have hc := (Char.ofNat_toNat c).symm; rw [hn] at hc; subst hc; decide)
      · have n1 : 48 ≤ c.toNat := h1
        have n2 : c.toNat ≤ 57 := h2
        interval_cases hn : c.toNat <;>
          (have hc := (Char.ofNat_toNat c).symm; rw [hn] at hc; subst hc; decide)
      · subst h1; decide
    simpa using hmem

/-- C4: `generate_slug` computes exactly the specification's pipeline —
lower-case, replace every space by a hyphen, strip everything outside
`[a-z0-9-]` — and, being a pure function, yields the same output on every
call with the same name. -/
theorem generate_slug_matches_spec (name : String) :
    generate_slug name = generate_slug_spec name ∧
    generate_slug name = generate_slug name := by
  refine ⟨?_, rfl⟩
  simp only [generate_slug, generate_slug_spec]
  congr 1
  apply List.filter_congr
  intro c _
  exact allowed_contains_eq c

theorem detailVersionLe_trans : ∀ a b c : ModpackVersion,
    detailVersionLe a b = true → detailVersionLe b c = true →
    detailVersionLe a c = true := by
  intro a b c
  simp only [detailVersionLe, detailKey, Bool.or_eq_true, Bool.and_eq_true,
    decide_eq_true_eq, beq_iff_eq]
  omega

theorem detailVersionLe_total : ∀ a b : ModpackVersion,
    (detailVersionLe a b || detailVersionLe b a) = true := by
  intro a b
  simp only [detailVersionLe, detailKey, Bool.or_eq_true, Bool.and_eq_true,
    decide_eq_true_eq, beq_iff_eq]
  omega

/-- C7: on a successful project-detail read, `total_downloads` is the
modpack-level counter and `version_downloads` is the sum of the download
counters of exactly the modpack's current version records; the version list
actually returned carries that same total. -/
theorem detail_stats_recomputed (slug : String) (db : DB) (m : Modpack) (author : User)
    (hfind : db.modpacks.find? (fun x => x.slug == slug) = some m)
    (hpub : m.is_published = true)
    (hauthor : db.users.find? (fun u => u.id == m.author_id) = some author) :
    detailStats (get_project_detail slug db).1 =
      some (m.downloads,
        ((db.versions.filter (fun v => v.modpack_id == m.id)).map
          (fun v => v.downloads)).sum) ∧
    (((detailVersions (get_project_detail slug db).1).getD []).map
        (fun v => v.downloads)).sum =
      ((db.versions.filter (fun v => v.modpack_id == m.id)).map
        (fun v => v.downloads)).sum := by
  refine ⟨?_, ?_⟩
  · simp [get_project_detail, hfind, hpub, hauthor, detailStats]
  · have hv : (detailVersions (get_project_detail slug db).1).getD [] =
        ((db.versions.filter (fun v => v.modpack_id == m.id)).mergeSort
          detailVersionLe).map toVersionInfo := by
      simp [get_project_detail, hfind, hpub, hauthor, detailVersions]
    rw [hv, List.map_map]
    have hcomp : ((fun v : VersionInfo => v.downloads) ∘ toVersionInfo) =
        (fun v : ModpackVersion => v.downloads) := by
      funext v; rfl
    rw [hcomp]
    exact List.Perm.sum_eq ((List.mergeSort_perm _ detailVersionLe).map _)

theorem detail_stats_recomputed_witness :
    detailStats (get_project_detail "all-the-mods-9" sampleDB).1 =
      some (pubModpack.downloads,
        ((sampleDB.versions.filter (fun v => v.modpack_id == pubModpack.id)).map
          (fun v => v.downloads)).sum) ∧
    (((detailVersions (get_project_detail "all-the-mods-9" sampleDB).1).getD []).map
        (fun v => v.downloads)).sum =
      ((sampleDB.versions.filter (fun v => v.modpack_id == pubModpack.id)).map
        (fun v => v.downloads)).sum :=
  detail_stats_recomputed "all-the-mods-9" sampleDB pubModpack alice
    (by decide) (by decide) (by decide)

/-- C8: the version list of a successful project-detail read is sorted by
creation timestamp descending with id descending as tiebreak, and is a
permutation of (exactly) the modpack's version records. -/
theorem detail_versions_sorted (slug : String) (db : DB) (m : Modpack) (author : User)
    (hfind : db.modpacks.find? (fun x => x.slug == slug) = some m)
    (hpub : m.is_published = true)
    (hauthor : db.users.find? (fun u => u.id == m.author_id) = some author) :
    List.Pairwise (fun a b : VersionInfo =>
        b.created_at.getD 0 < a.created_at.getD 0 ∨
          (b.created_at.getD 0 = a.created_at.getD 0 ∧ b.id ≤ a.id))
      ((detailVersions (get_project_detail slug db).1).getD []) ∧
    ((detailVersions (get_project_detail slug db).1).getD []).Perm
      ((db.versions.filter (fun v => v.modpack_id == m.id)).map toVersionInfo) ∧
    (detailVersions (get_project_detail slug db).1).isSome = true := by
  have hv : (detailVersions (get_project_detail slug db).1).getD [] =
      ((db.versions.filter (fun v => v.modpack_id == m.id)).mergeSort
        detailVersionLe).map toVersionInfo := by
    simp [get_project_detail, hfind, hpub, hauthor, detailVersions]
  refine ⟨?_, ?_, ?_⟩
  · rw [hv]
    have hsorted := List.sorted_mergeSort detailVersionLe_trans detailVersionLe_total
      (db.versions.filter (fun v => v.modpack_id == m.id))
    refine List.Pairwise.map toVersionInfo ?_ hsorted
    intro a b hab
    simp only [detailVersionLe, detailKey, Bool.or_eq_true, Bool.and_eq_true,
      decide_eq_true_eq, beq_iff_eq] at hab
    simp only [toVersionInfo]
    omega
  · rw [hv]
    exact (List.mergeSort_perm _ detailVersionLe).map toVersionInfo
  · simp [get_project_detail, hfind, hpub, hauthor, detailVersions]

theorem detail_versions_sorted_witness :
    List.Pairwise (fun a b : VersionInfo =>
        b.created_at.getD 0 < a.created_at.getD 0 ∨
          (b.created_at.getD 0 = a.created_at.getD 0 ∧ b.id ≤ a.id))
      ((detailVersions (get_project_detail "all-the-mods-9" sampleDB).1).getD []) ∧
    ((detailVersions (get_project_detail "all-the-mods-9" sampleDB).1).getD []).Perm
      ((sampleDB.versions.filter (fun v => v.modpack_id == pubModpack.id)).map
        toVersionInfo) ∧
    (detailVersions (get_project_detail "all-the-mods-9" sampleDB).1).isSome = true :=
  detail_versions_sorted "all-the-mods-9" sampleDB pubModpack alice
    (by decide) (by decide) (by decide)

theorem streamToFile_eq_none (max : Nat) :
    ∀ (chunks : List (List Nat)), (∀ c ∈ chunks, c ≠ ([] : List Nat)) →
      ∀ (size : Nat) (acc : List Nat), size ≤ max →
        max < size + totalBytes chunks →
        streamToFile max chunks size acc = none := by
  intro chunks
  induction chunks with
  | nil =>
    intro _ size acc hle hbig
    simp [totalBytes] at hbig
    omega
  | cons c cs ih =>
    intro hne size acc hle hbig
    have hc : c ≠ ([] : List Nat) := hne c (by simp)
    have hlen0 : (c.length == 0) = false := by
      simp only [beq_eq_false_iff_ne, ne_eq, List.length_eq_zero]
      exact hc
    by_cases hover : max < size + c.length
    · simp [streamToFile, hlen0, hover]
    · have hle' : size + c.length ≤ max := by omega
      have hbig' : max < size + c.length + totalBytes cs := by
        simp only [totalBytes, List.map_cons, List.sum_cons] at hbig ⊢
        omega
      simp only [streamToFile, hlen0, Bool.false_eq_true, if_false, hover]
      exact ih (fun x hx => hne x (List.mem_cons_of_mem c hx))
        (size + c.length) (acc ++ c) hle' hbig'

theorem fileExists_unlinkFile (fs : Storage) (name : String) :
    fileExists (unlinkFile fs name) name = false := by
  simp only [fileExists, unlinkFile, List.any_eq_false]
  intro x hx
  have hne := (List.mem_filter.mp hx).2
  simpa using hne

/-- C1: an upload whose byte stream exceeds the size ceiling leaves no
partial file on storage and leaves the store — and with it the target
version's `download_url` and `file_size` — unchanged, but the error
surfaced to the caller is not PayloadTooLarge (413): the 413 raised
mid-stream is caught by the handler's blanket `except Exception` clause and
re-surfaced as a 500 wrapping the 413 message. -/
theorem upload_oversized_cleans_up_but_surfaces_500 (slug version filename : String)
    (chunks : List (List Nat)) (hashFn : List Nat → String) (u : User)
    (db : DB) (fs : Storage) (mp : Modpack) (vr : ModpackVersion)
    (hmp : db.modpacks.find? (fun m => m.slug == slug) = some mp)
    (hauth : mp.author_id = u.id)
    (hext : (strEndsWith filename ".zip" || strEndsWith filename ".mrpack") = true)
    (hvr : db.versions.find?
      (fun v => v.modpack_id == mp.id && v.version == version) = some vr)
    (hne : ∀ c ∈ chunks, c ≠ ([] : List Nat))
    (hbig : MAX_FILE_SIZE < totalBytes chunks) :
    upload_modpack_file slug version filename chunks hashFn u db fs =
      (Except.error ⟨500, "Upload failed: 413: File too large. Maximum size is 500.0MB"⟩,
        db, unlinkFile fs (slug ++ "-" ++ version ++ pathSuffix filename)) ∧
    fileExists (upload_modpack_file slug version filename chunks hashFn u db fs).2.2
      (slug ++ "-" ++ version ++ pathSuffix filename) = false ∧
    (upload_modpack_file slug version filename chunks hashFn u db fs).2.1 = db := by
  have hstream : streamToFile MAX_FILE_SIZE chunks 0 [] = none :=
    streamToFile_eq_none MAX_FILE_SIZE chunks hne 0 [] (Nat.zero_le _) (by simpa using hbig)
  have hmain : upload_modpack_file slug version filename chunks hashFn u db fs =
      (Except.error ⟨500, "Upload failed: 413: File too large. Maximum size is 500.0MB"⟩,
        db, unlinkFile fs (slug ++ "-" ++ version ++ pathSuffix filename)) := by
    simp [upload_modpack_file, hmp, hauth, hext, hvr, hstream]
  refine ⟨hmain, ?_, ?_⟩
  · rw [hmain]
    exact fileExists_unlinkFile fs (slug ++ "-" ++ version ++ pathSuffix filename)
  · rw [hmain]

theorem upload_oversized_cleans_up_but_surfaces_500_witness :
    upload_modpack_file "all-the-mods-9" "1.0.0" "big.zip"
        [List.replicate (MAX_FILE_SIZE + 1) 0] (fun _ => "") alice sampleDB [] =
      (Except.error ⟨500, "Upload failed: 413: File too large. Maximum size is 500.0MB"⟩,
        sampleDB, unlinkFile [] ("all-the-mods-9" ++ "-" ++ "1.0.0" ++ pathSuffix "big.zip")) ∧
    fileExists (upload_modpack_file "all-the-mods-9" "1.0.0" "big.zip"
        [List.replicate (MAX_FILE_SIZE + 1) 0] (fun _ => "") alice sampleDB []).2.2
      ("all-the-mods-9" ++ "-" ++ "1.0.0" ++ pathSuffix "big.zip") = false ∧
    (upload_modpack_file "all-the-mods-9" "1.0.0" "big.zip"
        [List.replicate (MAX_FILE_SIZE + 1) 0] (fun _ => "") alice sampleDB []).2.1 =
      sampleDB :=
  upload_oversized_cleans_up_but_surfaces_500 "all-the-mods-9" "1.0.0" "big.zip"
    [List.replicate (MAX_FILE_SIZE + 1) 0] (fun _ => "") alice sampleDB []
    pubModpack v100 (by decide) (by decide) (by decide) (by decide)
    (by
      intro c hc
      simp only [List.mem_singleton] at hc
      subst hc
      intro hnil
      have := congrArg List.length hnil
      simp [List.length_replicate] at this)
    (by simp [totalBytes, List.length_replicate])

end ChunkApi
